import Mathlib

/-!
Shallow embedding of `examples/anthropic-sdk/benchmark/benchmark.py`
(the benchmark orchestration and aggregation engine of the TJC-LP/xl
repository), together with theorems settling the spec claims about it.

External service calls (completion requests, grading requests) are
modelled by their observable results: a call either returns a response
value or raises, which we represent with `Except String`; the raised
exception's string rendering (`str(e)` in Python) is the `error` payload.
Wall-clock latency is an input to each runner (the Python code derives it
from `time.time()` around the call).
-/

namespace Benchmark

/-- One content block of a completion-service response
(`response.content` elements, each with a `type` tag and text). -/
structure ContentBlock where
  type : String
  text : String
  deriving Repr, DecidableEq

/-- The observable part of a successful completion-service response:
content blocks and the usage record (`response.usage`). -/
structure ApiResponse where
  content : List ContentBlock
  input_tokens : Nat
  output_tokens : Nat
  deriving Repr, DecidableEq

/-- A task definition from `tasks.py`: a dict with `id`, `name`,
`xl_prompt`, `xlsx_prompt` and an optional `expected_answer`. -/
structure Task where
  id : String
  name : String
  xl_prompt : String
  xlsx_prompt : String
  expected_answer : Option String
  deriving Repr, DecidableEq

/-- The `TaskResult` dataclass of `benchmark.py` (field order as in the
source; optional fields default to `None`). -/
structure TaskResult where
  task_id : String
  task_name : String
  approach : String
  success : Bool
  input_tokens : Nat
  output_tokens : Nat
  total_tokens : Nat
  latency_ms : Nat
  error : Option String := none
  response_text : Option String := none
  grade : Option String := none
  grade_reasoning : Option String := none
  deriving Repr, DecidableEq

/-- The `BenchmarkResults` dataclass. -/
structure BenchmarkResults where
  timestamp : String
  model : String
  sample_file : String
  results : List TaskResult
  deriving Repr, DecidableEq

/-- `"".join(b.text for b in response.content if b.type == "text")`. -/
def joinTextBlocks (content : List ContentBlock) : String :=
  String.join (content.filterMap fun b =>
    if b.type == "text" then some b.text else none)

/-- Python's `response_text or None`: an empty string becomes `None`. -/
def strOrNone (s : String) : Option String :=
  if s = "" then none else some s

/-- `run_xl_task`: one completion call for the xl approach.  On success,
token counts come from the usage record and `total` is their sum; on a
raised failure the outcome has `success = False`, zeroed token counts,
the elapsed latency, and `error = str(e)`. -/
def run_xl_task (task : Task) (call : Except String ApiResponse)
    (latency_ms : Nat) : TaskResult :=
  match call with
  | .ok resp =>
      { task_id := task.id
        task_name := task.name
        approach := "xl"
        success := true
        input_tokens := resp.input_tokens
        output_tokens := resp.output_tokens
        total_tokens := resp.input_tokens + resp.output_tokens
        latency_ms := latency_ms
        response_text := strOrNone (joinTextBlocks resp.content) }
  | .error e =>
      { task_id := task.id
        task_name := task.name
        approach := "xl"
        success := false
        input_tokens := 0
        output_tokens := 0
        total_tokens := 0
        latency_ms := latency_ms
        error := some e }

/-- `run_xlsx_task`: same shape as `run_xl_task` with approach `"xlsx"`. -/
def run_xlsx_task (task : Task) (call : Except String ApiResponse)
    (latency_ms : Nat) : TaskResult :=
  match call with
  | .ok resp =>
      { task_id := task.id
        task_name := task.name
        approach := "xlsx"
        success := true
        input_tokens := resp.input_tokens
        output_tokens := resp.output_tokens
        total_tokens := resp.input_tokens + resp.output_tokens
        latency_ms := latency_ms
        response_text := strOrNone (joinTextBlocks resp.content) }
  | .error e =>
      { task_id := task.id
        task_name := task.name
        approach := "xlsx"
        success := false
        input_tokens := 0
        output_tokens := 0
        total_tokens := 0
        latency_ms := latency_ms
        error := some e }

/-- The structured grading payload (`GradeResult` pydantic model). -/
structure GradeResult where
  grade : String
  reason : String
  deriving Repr, DecidableEq

/-- `grade_response`: on success returns the parsed `(grade, reason)`
pair; on a raised failure returns the sentinel `"?"` with
`f"Grading error: \x7be\x7d"`. -/
def grade_response (call : Except String GradeResult) : String × String :=
  match call with
  | .ok r => (r.grade, r.reason)
  | .error e => ("?", "Grading error: " ++ e)

/-- Python truthiness of the optional response text: `None` and `""`
are falsy. -/
def textTruthy : Option String → Bool
  | none => false
  | some s => !(s == "")

/-- The guard in `run_and_grade`:
`enable_grading and result.success and result.response_text`. -/
def gradingInvoked (enable_grading : Bool) (result : TaskResult) : Bool :=
  enable_grading && result.success && textTruthy result.response_text

/-- `run_and_grade` (inner function of `run_benchmark`): when grading is
enabled, the outcome succeeded and its response text is truthy, call the
grader and set the outcome's `grade`/`grade_reasoning`; otherwise return
the outcome unchanged. -/
def run_and_grade (enable_grading : Bool)
    (grade_call : Except String GradeResult) (result : TaskResult) :
    TaskResult :=
  if gradingInvoked enable_grading result then
    let gr := grade_response grade_call
    { result with grade := some gr.1, grade_reasoning := some gr.2 }
  else
    result

/-- The per-task slot of the `tasks` dict built at the top of
`print_comparison_table`: the task's display name and the (last) result
stored under each approach key. -/
structure TaskPair where
  name : String
  xl : Option TaskResult := none
  xlsx : Option TaskResult := none
  deriving Repr, DecidableEq

/-- `tasks[task_id][r.approach] = r` for one result. -/
def setApproach (p : TaskPair) (r : TaskResult) : TaskPair :=
  if r.approach == "xl" then { p with xl := some r }
  else if r.approach == "xlsx" then { p with xlsx := some r }
  else p

/-- Update an insertion-ordered association list at `task_id`, inserting
`{"name": r.task_name}` first when the key is absent (the Python dict
preserves insertion order). -/
def updatePairs (pairs : List (String × TaskPair)) (r : TaskResult) :
    List (String × TaskPair) :=
  match pairs with
  | [] => [(r.task_id, setApproach { name := r.task_name } r)]
  | (k, p) :: rest =>
      if k == r.task_id then (k, setApproach p r) :: rest
      else (k, p) :: updatePairs rest r

/-- The grouping loop of `print_comparison_table`: build the
insertion-ordered `tasks` dict from the result list. -/
def group_tasks (results : List TaskResult) : List (String × TaskPair) :=
  results.foldl updatePairs []

/-- Whether a task row enters the comparable branch:
`xl and xlsx and xl.success and xlsx.success`. -/
def pairComparable (p : TaskPair) : Bool :=
  match p.xl, p.xlsx with
  | some a, some b => a.success && b.success
  | _, _ => false

/-- The running accumulators of the main loop of
`print_comparison_table`. -/
structure Totals where
  xl_input : Nat := 0
  xl_output : Nat := 0
  xlsx_input : Nat := 0
  xlsx_output : Nat := 0
  xl_wins : Nat := 0
  xlsx_wins : Nat := 0
  xl_grades : List String := []
  xlsx_grades : List String := []
  deriving Repr, DecidableEq

/-- Python truthiness of `r.grade` (`if xl.grade:`). -/
def gradeTruthy : Option String → List String
  | none => []
  | some g => if g == "" then [] else [g]

/-- One iteration of the comparison loop: on a comparable row, add the
row's token counts to the running totals, append truthy grades, and
bump the winner tally by the strictly-fewer-total-tokens rule; any other
row leaves the accumulators unchanged. -/
def accumRow (t : Totals) (p : TaskPair) : Totals :=
  match p.xl, p.xlsx with
  | some xl, some xlsx =>
      if xl.success && xlsx.success then
        { xl_input := t.xl_input + xl.input_tokens
          xl_output := t.xl_output + xl.output_tokens
          xlsx_input := t.xlsx_input + xlsx.input_tokens
          xlsx_output := t.xlsx_output + xlsx.output_tokens
          xl_grades := t.xl_grades ++ gradeTruthy xl.grade
          xlsx_grades := t.xlsx_grades ++ gradeTruthy xlsx.grade
          xl_wins :=
            t.xl_wins + if xl.total_tokens < xlsx.total_tokens then 1 else 0
          xlsx_wins :=
            t.xlsx_wins + if xlsx.total_tokens < xl.total_tokens then 1 else 0 }
      else t
  | _, _ => t

/-- The accumulators after the whole comparison loop. -/
def comparison (results : List TaskResult) : Totals :=
  ((group_tasks results).map Prod.snd).foldl accumRow {}

/-- `total_xl = total_xl_input + total_xl_output`. -/
def total_xl (t : Totals) : Nat := t.xl_input + t.xl_output

/-- `total_xlsx = total_xlsx_input + total_xlsx_output`. -/
def total_xlsx (t : Totals) : Nat := t.xlsx_input + t.xlsx_output

/-- The per-task winner of the comparable branch: strictly fewer total
tokens wins, equal totals give `"tie"`. -/
def task_winner (xl_total xlsx_total : Nat) : String :=
  if xl_total < xlsx_total then "xl"
  else if xlsx_total < xl_total then "xlsx"
  else "tie"

/-- The per-task savings percentage of the comparable branch, before the
display rounding: `(loser - winner) / loser * 100`, and `0` on a tie. -/
def task_savings (xl_total xlsx_total : Nat) : ℚ :=
  if xl_total < xlsx_total then
    ((xlsx_total : ℚ) - (xl_total : ℚ)) / (xlsx_total : ℚ) * 100
  else if xlsx_total < xl_total then
    ((xl_total : ℚ) - (xlsx_total : ℚ)) / (xl_total : ℚ) * 100
  else 0

/-- The run-level winner and savings block guarded by
`total_xl > 0 and total_xlsx > 0`: winner `"xl"` exactly when
`total_xl < total_xlsx`, otherwise winner `"xlsx"`; the savings value is
kept exact (the code formats it to one decimal). -/
def overall (results : List TaskResult) : Option (String × ℚ) :=
  if 0 < total_xl (comparison results) ∧ 0 < total_xlsx (comparison results) then
    if total_xl (comparison results) < total_xlsx (comparison results) then
      some ("xl",
        ((total_xlsx (comparison results) : ℚ) -
            (total_xl (comparison results) : ℚ)) /
          (total_xlsx (comparison results) : ℚ) * 100)
    else
      some ("xlsx",
        ((total_xl (comparison results) : ℚ) -
            (total_xlsx (comparison results) : ℚ)) /
          (total_xl (comparison results) : ℚ) * 100)
  else none

/-- `grade_to_num`: A=4, B=3, C=2, D=1, F=0, anything else -1. -/
def grade_to_num (g : String) : Int :=
  if g == "A" then 4
  else if g == "B" then 3
  else if g == "C" then 2
  else if g == "D" then 1
  else if g == "F" then 0
  else -1

/-- `avg_grade`: keep the grades with a non-negative ordinal, return
`"-"` when none remain, otherwise bucket the mean by the thresholds
3.5 / 2.5 / 1.5 / 0.5. -/
def avg_grade (grades : List String) : String :=
  let valid := (grades.map grade_to_num).filter (fun n => 0 ≤ n)
  if valid.isEmpty then "-"
  else
    let avg : ℚ := (valid.sum : ℚ) / (valid.length : ℚ)
    if 3.5 ≤ avg then "A"
    else if 2.5 ≤ avg then "B"
    else if 1.5 ≤ avg then "C"
    else if 0.5 ≤ avg then "D"
    else "F"

/-- The deterministic behaviour of the external call layer for one run:
for each (approach, task id) pair, the completion call's outcome, the
wall-clock latency the runner observes, and the grading call's outcome. -/
structure Oracle where
  runCall : String → String → Except String ApiResponse
  latency : String → String → Nat
  gradeCall : String → String → Except String GradeResult

/-- The flags `run_benchmark` receives from the CLI. -/
structure Config where
  xl_only : Bool
  xlsx_only : Bool
  enable_grading : Bool
  deriving Repr, DecidableEq

/-- `run_task_pair`: run (and optionally grade) the xl approach unless
`--xlsx-only`, then the xlsx approach unless `--xl-only`, appending each
outcome to the task's result list. -/
def run_task_pair (cfg : Config) (ora : Oracle) (task : Task) :
    List TaskResult :=
  (if !cfg.xlsx_only then
    [run_and_grade cfg.enable_grading (ora.gradeCall "xl" task.id)
      (run_xl_task task (ora.runCall "xl" task.id) (ora.latency "xl" task.id))]
  else []) ++
  (if !cfg.xl_only then
    [run_and_grade cfg.enable_grading (ora.gradeCall "xlsx" task.id)
      (run_xlsx_task task (ora.runCall "xlsx" task.id)
        (ora.latency "xlsx" task.id))]
  else [])

/-- The sequential branch of `run_benchmark`: process tasks one at a
time in catalog order, extending the flat result list. -/
def run_benchmark_seq (cfg : Config) (ora : Oracle) :
    List Task → List TaskResult
  | [] => []
  | t :: ts => run_task_pair cfg ora t ++ run_benchmark_seq cfg ora ts

/-- `run_benchmark`: the parallel branch pre-sizes
`results_list = [[] for _ in tasks]`, each unit of work writes its
task's pair list into its own catalog index, and the lists are then
flattened in index order; the sequential branch is
`run_benchmark_seq`. -/
def run_benchmark (parallel : Bool) (cfg : Config) (ora : Oracle)
    (tasks : List Task) : List TaskResult :=
  if parallel then
    (tasks.enum.foldl
        (fun acc p => acc.set p.1 (run_task_pair cfg ora p.2))
        (tasks.map fun _ => [])).flatten
  else
    run_benchmark_seq cfg ora tasks

/-- JSON values, as produced by `json.dump` of the run record. -/
inductive Json where
  | null : Json
  | bool : Bool → Json
  | num : Nat → Json
  | str : String → Json
  | arr : List Json → Json
  | obj : List (String × Json) → Json
  deriving Repr

/-- How `asdict`/`json.dump` render an optional string field: `null`
when it is `None`. -/
def optStrJson : Option String → Json
  | none => Json.null
  | some s => Json.str s

/-- `dataclasses.asdict` on a `TaskResult`: every field of the
dataclass appears, in declaration order, optional fields as `null` when
unset. -/
def taskResultAsdict (r : TaskResult) : Json :=
  Json.obj
    [("task_id", Json.str r.task_id),
     ("task_name", Json.str r.task_name),
     ("approach", Json.str r.approach),
     ("success", Json.bool r.success),
     ("input_tokens", Json.num r.input_tokens),
     ("output_tokens", Json.num r.output_tokens),
     ("total_tokens", Json.num r.total_tokens),
     ("latency_ms", Json.num r.latency_ms),
     ("error", optStrJson r.error),
     ("response_text", optStrJson r.response_text),
     ("grade", optStrJson r.grade),
     ("grade_reasoning", optStrJson r.grade_reasoning)]

/-- `BenchmarkResults.to_dict`. -/
def benchmarkToDict (b : BenchmarkResults) : Json :=
  Json.obj
    [("timestamp", Json.str b.timestamp),
     ("model", Json.str b.model),
     ("sample_file", Json.str b.sample_file),
     ("results", Json.arr (b.results.map taskResultAsdict))]

/-- Key presence in a serialized object. -/
def hasKey (j : Json) (k : String) : Bool :=
  match j with
  | Json.obj fields => fields.any fun f => f.1 == k
  | _ => false

/-- Lookup of a key in a serialized object (first occurrence). -/
def lookupKey (j : Json) (k : String) : Option Json :=
  match j with
  | Json.obj fields => (fields.find? fun f => f.1 == k).map Prod.snd
  | _ => none

/-- The CLI argument surface of `main` that affects the persisted
record. -/
structure Args where
  task : Option String
  xl_only : Bool
  xlsx_only : Bool
  sequential : Bool
  no_grade : Bool
  deriving Repr, DecidableEq

/-- Task selection in `main`: with `--task`, keep the tasks whose id
matches. -/
def select_tasks (args : Args) (tasks : List Task) : List Task :=
  match args.task with
  | some tid => tasks.filter fun t => t.id == tid
  | none => tasks

/-- `main` after argument parsing, modelled up to the persisted run
record: it exits with no record when the sample file or the API key is
missing, or when `--task` matches nothing; otherwise it runs the
benchmark and unconditionally serializes a `BenchmarkResults` whose
`results` list is whatever `run_benchmark` returned, empty or not. -/
def main_run (sample_exists api_key_set : Bool) (args : Args)
    (ora : Oracle) (tasks0 : List Task) (timestamp sample_file : String) :
    Option Json :=
  if !sample_exists then none
  else if !api_key_set then none
  else
    let tasks := select_tasks args tasks0
    if args.task.isSome && tasks.isEmpty then none
    else
      let cfg : Config :=
        { xl_only := args.xl_only, xlsx_only := args.xlsx_only,
          enable_grading := !args.no_grade }
      let results := run_benchmark (!args.sequential) cfg ora tasks
      some (benchmarkToDict
        { timestamp := timestamp
          model := "claude-sonnet-4-5-20250929"
          sample_file := sample_file
          results := results })

/-- The token-accounting invariant of §8: a successful outcome's total
is the sum of its input and output counts; a failed outcome's counts are
all zero. -/
def outcomeTokenInvariant (r : TaskResult) : Prop :=
  (r.success = true →
    r.total_tokens = r.input_tokens + r.output_tokens) ∧
  (r.success = false →
    r.input_tokens = 0 ∧ r.output_tokens = 0 ∧ r.total_tokens = 0)

/-- The observable triple compared across execution modes. -/
def outcomeTriple (r : TaskResult) : String × String × Bool :=
  (r.task_id, r.approach, r.success)

/-- Spec-worded bucketing of a grade mean: thresholds
3.5 / 2.5 / 1.5 / 0.5 map the mean back to a letter. -/
def bucket_mean (q : ℚ) : String :=
  if 3.5 ≤ q then "A"
  else if 2.5 ≤ q then "B"
  else if 1.5 ≤ q then "C"
  else if 0.5 ≤ q then "D"
  else "F"

/-- Spec-worded grade collection (for the refinement comparison in the
grade-average claim): every outcome of the given approach that carries a
set, non-empty grade contributes, regardless of the other approach. -/
def specApproachGrades (approach : String) (results : List TaskResult) :
    List String :=
  results.foldr
    (fun r acc =>
      (if r.approach == approach then gradeTruthy r.grade else []) ++ acc) []

/-- The xl grades one comparable row contributes to the accumulators
(empty for a non-comparable row). -/
def pairXlGrades (p : TaskPair) : List String :=
  match p.xl, p.xlsx with
  | some a, some b => if a.success && b.success then gradeTruthy a.grade else []
  | _, _ => []

/-- The xlsx grades one comparable row contributes. -/
def pairXlsxGrades (p : TaskPair) : List String :=
  match p.xl, p.xlsx with
  | some a, some b => if a.success && b.success then gradeTruthy b.grade else []
  | _, _ => []

/-- xl grades collected from the comparable rows only, in row order. -/
def comparableXlGrades (results : List TaskResult) : List String :=
  ((group_tasks results).map Prod.snd).foldr
    (fun p acc => pairXlGrades p ++ acc) []

/-- xlsx grades collected from the comparable rows only, in row order. -/
def comparableXlsxGrades (results : List TaskResult) : List String :=
  ((group_tasks results).map Prod.snd).foldr
    (fun p acc => pairXlsxGrades p ++ acc) []

/-! Concrete inputs used to settle individual claims. -/

/-- A one-task catalog entry. -/
def demoTask : Task :=
  { id := "t0", name := "Demo", xl_prompt := "p", xlsx_prompt := "q",
    expected_answer := some "42" }

/-- An oracle under which both approaches succeed on `demoTask` with the
same total token count (100 each) but different splits; grading off. -/
def tieOracle : Oracle :=
  { runCall := fun approach _ =>
      if approach == "xl" then
        Except.ok { content := [⟨"text", "ok"⟩], input_tokens := 60,
                    output_tokens := 40 }
      else
        Except.ok { content := [⟨"text", "ok"⟩], input_tokens := 70,
                    output_tokens := 30 }
    latency := fun _ _ => 5
    gradeCall := fun _ _ => Except.error "unused" }

/-- The outcome list of a run where the two approaches tie at 100 total
tokens on the single task. -/
def tieResults : List TaskResult :=
  run_task_pair { xl_only := false, xlsx_only := false,
                  enable_grading := false } tieOracle demoTask

/-- An oracle under which the xl call succeeds (and grades A) while the
xlsx call raises. -/
def xlsxFailOracle : Oracle :=
  { runCall := fun approach _ =>
      if approach == "xl" then
        Except.ok { content := [⟨"text", "answer"⟩], input_tokens := 10,
                    output_tokens := 5 }
      else
        Except.error "transport failure"
    latency := fun _ _ => 3
    gradeCall := fun _ _ => Except.ok { grade := "A", reason := "correct" } }

/-- The outcome list of a run where xl succeeded with grade A and xlsx
failed on the same task. -/
def xlsxFailResults : List TaskResult :=
  run_task_pair { xl_only := false, xlsx_only := false,
                  enable_grading := true } xlsxFailOracle demoTask

/-- A failed outcome produced by the xl runner (raised call). -/
def failedOutcome : TaskResult :=
  run_xl_task demoTask (Except.error "boom") 5

/-- A successful outcome with non-empty response text. -/
def sampleSuccess : TaskResult :=
  run_xl_task demoTask
    (Except.ok { content := [⟨"text", "answer"⟩], input_tokens := 10,
                 output_tokens := 5 }) 3

end Benchmark

namespace Benchmark

/-- C4: every outcome produced by either approach runner satisfies the
token invariant: on success the total equals input plus output, and on
failure all three counters are zero. -/
theorem runner_token_invariant (task : Task)
    (call : Except String ApiResponse) (lat : Nat) :
    outcomeTokenInvariant (run_xl_task task call lat) ∧
    outcomeTokenInvariant (run_xlsx_task task call lat) := by
  cases call <;>
    simp [outcomeTokenInvariant, run_xl_task, run_xlsx_task]

/-- Witness for `runner_token_invariant` at a concrete task, failing
call and latency. -/
theorem runner_token_invariant_witness :
    outcomeTokenInvariant (run_xl_task demoTask (Except.error "boom") 5) ∧
    outcomeTokenInvariant (run_xlsx_task demoTask (Except.error "boom") 5) :=
  runner_token_invariant demoTask (Except.error "boom") 5

/-- C5: on a raised failure from the call layer, each runner returns
(rather than raises — it is a total function) an outcome with
`success = false`, zeroed token counters, the elapsed latency, the
raised failure's string rendering in `error`, and no response text or
grade. -/
theorem runner_failure_outcome (task : Task) (e : String) (lat : Nat) :
    run_xl_task task (Except.error e) lat =
      { task_id := task.id, task_name := task.name, approach := "xl",
        success := false, input_tokens := 0, output_tokens := 0,
        total_tokens := 0, latency_ms := lat, error := some e } ∧
    run_xlsx_task task (Except.error e) lat =
      { task_id := task.id, task_name := task.name, approach := "xlsx",
        success := false, input_tokens := 0, output_tokens := 0,
        total_tokens := 0, latency_ms := lat, error := some e } :=
  ⟨rfl, rfl⟩

/-- C6: a raised grading call yields (rather than raises) the sentinel
grade `"?"` with a non-empty rationale embedding the failure reason, and
`run_and_grade` changes only the `grade`/`grade_reasoning` fields of the
outcome — every other field is unchanged. -/
theorem grading_failure_sentinel (e : String) (en : Bool)
    (gc : Except String GradeResult) (r : TaskResult) :
    grade_response (Except.error e) = ("?", "Grading error: " ++ e) ∧
    ("Grading error: " ++ e) ≠ "" ∧
    (gradingInvoked en r = true →
      (run_and_grade en (Except.error e) r).grade = some "?" ∧
      (run_and_grade en (Except.error e) r).grade_reasoning =
        some ("Grading error: " ++ e)) ∧
    ((run_and_grade en gc r).success = r.success ∧
     (run_and_grade en gc r).input_tokens = r.input_tokens ∧
     (run_and_grade en gc r).output_tokens = r.output_tokens ∧
     (run_and_grade en gc r).total_tokens = r.total_tokens ∧
     (run_and_grade en gc r).latency_ms = r.latency_ms ∧
     (run_and_grade en gc r).error = r.error ∧
     (run_and_grade en gc r).response_text = r.response_text ∧
     (run_and_grade en gc r).task_id = r.task_id ∧
     (run_and_grade en gc r).task_name = r.task_name ∧
     (run_and_grade en gc r).approach = r.approach) := by
  refine ⟨rfl, ?_, ?_, ?_⟩
  · intro h
    have hd := congrArg String.data h
    simp at hd
  · intro hinv
    simp [run_and_grade, hinv, grade_response]
  · by_cases hinv : gradingInvoked en r <;>
      simp [run_and_grade, hinv]

/-- Witness for `grading_failure_sentinel` at a concrete failing call
and a concrete graded outcome. -/
theorem grading_failure_sentinel_witness :
    grade_response (Except.error "timeout") =
      ("?", "Grading error: " ++ "timeout") ∧
    (run_and_grade true (Except.error "timeout") sampleSuccess).grade =
      some "?" ∧
    (run_and_grade true (Except.error "timeout") sampleSuccess).success =
      sampleSuccess.success := by
  have h := grading_failure_sentinel "timeout" true
    (Except.error "timeout") sampleSuccess
  exact ⟨h.1, (h.2.2.1 (by decide)).1, h.2.2.2.1⟩

/-- C8: grading is invoked exactly when grading is enabled, the outcome
succeeded, and its response text is set and non-empty; in that case the
grader's pair lands in the grade fields, otherwise the outcome is
returned unchanged; and a successful call whose blocks join to the empty
string stores `response_text` as `None`. -/
theorem grading_invocation_condition (en : Bool)
    (gc : Except String GradeResult) (r : TaskResult)
    (task : Task) (resp : ApiResponse) (lat : Nat) :
    (gradingInvoked en r = true ↔
      en = true ∧ r.success = true ∧
        ∃ s, r.response_text = some s ∧ s ≠ "") ∧
    (gradingInvoked en r = true →
      (run_and_grade en gc r).grade = some (grade_response gc).1 ∧
      (run_and_grade en gc r).grade_reasoning =
        some (grade_response gc).2) ∧
    (gradingInvoked en r = false → run_and_grade en gc r = r) ∧
    (joinTextBlocks resp.content = "" →
      (run_xl_task task (Except.ok resp) lat).response_text = none ∧
      (run_xlsx_task task (Except.ok resp) lat).response_text = none) := by
  refine ⟨?_, ?_, ?_, ?_⟩
  · unfold gradingInvoked textTruthy
    cases hrt : r.response_text with
    | none => simp
    | some s => simp [and_assoc]
  · intro hinv
    simp [run_and_grade, hinv]
  · intro hinv
    simp [run_and_grade, hinv]
  · intro hj
    simp [run_xl_task, run_xlsx_task, strOrNone, hj]

/-- Witness for `grading_invocation_condition`: grading fires on a
successful outcome with text and writes the parsed grade; with grading
disabled the outcome is unchanged. -/
theorem grading_invocation_condition_witness :
    (run_and_grade true (Except.ok ⟨"A", "good"⟩) sampleSuccess).grade =
      some "A" ∧
    run_and_grade false (Except.ok ⟨"A", "good"⟩) sampleSuccess =
      sampleSuccess := by
  have h1 := grading_invocation_condition true
    (Except.ok ⟨"A", "good"⟩) sampleSuccess demoTask
    { content := [], input_tokens := 0, output_tokens := 0 } 0
  have h2 := grading_invocation_condition false
    (Except.ok ⟨"A", "good"⟩) sampleSuccess demoTask
    { content := [], input_tokens := 0, output_tokens := 0 } 0
  exact ⟨(h1.2.1 (by decide)).1, h2.2.2.1 (by decide)⟩

/-- C9: the per-task winner rule is antisymmetric — swapping which side
has the strictly smaller total flips the winner between `"xl"` and
`"xlsx"` and keeps the savings magnitude, which is
`(loser - winner) / loser * 100`. -/
theorem winner_rule_antisymmetric (a b : Nat) (h : a < b) :
    task_winner a b = "xl" ∧ task_winner b a = "xlsx" ∧
    task_savings a b = ((b : ℚ) - (a : ℚ)) / (b : ℚ) * 100 ∧
    task_savings b a = task_savings a b := by
  have h' : ¬ b < a := by omega
  refine ⟨?_, ?_, ?_, ?_⟩ <;>
    simp [task_winner, task_savings, h, h']

/-- Witness for `winner_rule_antisymmetric` at totals 140 and 150. -/
theorem winner_rule_antisymmetric_witness :
    task_winner 140 150 = "xl" ∧ task_winner 150 140 = "xlsx" ∧
    task_savings 140 150 =
      (((150 : Nat) : ℚ) - ((140 : Nat) : ℚ)) / ((150 : Nat) : ℚ) * 100 ∧
    task_savings 150 140 = task_savings 140 150 :=
  winner_rule_antisymmetric 140 150 (by decide)

/-- Setting a list at the length of its prefix replaces the head of the
suffix. -/
theorem set_append_cons {α : Type} (pre : List α) (s : α) (suf : List α)
    (v : α) :
    (pre ++ s :: suf).set pre.length v = pre ++ v :: suf := by
  induction pre with
  | nil => rfl
  | cons a pre ih =>
    show a :: ((pre ++ s :: suf).set pre.length v) = a :: (pre ++ v :: suf)
    exact congrArg _ ih

/-- The index-owned writes of the parallel branch: folding
`acc.set i (f task_i)` over the enumerated tasks fills the pre-sized
collection with exactly the per-task lists, in catalog order. -/
theorem enumFrom_foldl_set (f : Task → List TaskResult) :
    ∀ (ts : List Task) (pre suf : List (List TaskResult)),
      suf.length = ts.length →
      (ts.enumFrom pre.length).foldl
          (fun acc p => acc.set p.1 (f p.2)) (pre ++ suf) =
        pre ++ ts.map f := by
  intro ts
  induction ts with
  | nil =>
    intro pre suf h
    rw [List.length_eq_zero.mp h]
    simp [List.enumFrom]
  | cons t ts ih =>
    intro pre suf h
    cases suf with
    | nil => simp at h
    | cons s suf =>
      simp only [List.enumFrom_cons, List.foldl_cons]
      rw [set_append_cons]
      have h2 : suf.length = ts.length := by simpa using h
      have h3 := ih (pre ++ [f t]) suf h2
      simp only [List.length_append, List.length_cons, List.length_nil,
        List.append_assoc, List.singleton_append] at h3
      simpa using h3

/-- Flattening the per-task pair lists in catalog order is the
sequential traversal. -/
theorem flatten_map_pair (cfg : Config) (ora : Oracle) :
    ∀ tasks, ((tasks.map (run_task_pair cfg ora)).flatten =
      run_benchmark_seq cfg ora tasks) := by
  intro tasks
  induction tasks with
  | nil => rfl
  | cons t ts ih => simp [run_benchmark_seq, ih]

/-- Both concurrency modes of `run_benchmark` compute the sequential
traversal. -/
theorem run_benchmark_eq_seq (p : Bool) (cfg : Config) (ora : Oracle)
    (tasks : List Task) :
    run_benchmark p cfg ora tasks = run_benchmark_seq cfg ora tasks := by
  cases p with
  | false => rfl
  | true =>
    have h := enumFrom_foldl_set (run_task_pair cfg ora) tasks []
      (tasks.map fun _ => []) (by simp)
    simp only [List.nil_append, List.length_nil] at h
    unfold run_benchmark
    rw [if_pos rfl]
    show ((tasks.enumFrom 0).foldl
        (fun acc p => acc.set p.1 (run_task_pair cfg ora p.2))
        (tasks.map fun _ => [])).flatten = run_benchmark_seq cfg ora tasks
    rw [h]
    exact flatten_map_pair cfg ora tasks

/-- The xl runner stamps approach `"xl"` and the task's id. -/
theorem run_xl_task_fields (task : Task) (call : Except String ApiResponse)
    (lat : Nat) :
    (run_xl_task task call lat).approach = "xl" ∧
    (run_xl_task task call lat).task_id = task.id := by
  cases call <;> exact ⟨rfl, rfl⟩

/-- The xlsx runner stamps approach `"xlsx"` and the task's id. -/
theorem run_xlsx_task_fields (task : Task) (call : Except String ApiResponse)
    (lat : Nat) :
    (run_xlsx_task task call lat).approach = "xlsx" ∧
    (run_xlsx_task task call lat).task_id = task.id := by
  cases call <;> exact ⟨rfl, rfl⟩

/-- Grading leaves the approach label and task id untouched. -/
theorem run_and_grade_fields (en : Bool) (gc : Except String GradeResult)
    (r : TaskResult) :
    (run_and_grade en gc r).approach = r.approach ∧
    (run_and_grade en gc r).task_id = r.task_id := by
  unfold run_and_grade
  split <;> exact ⟨rfl, rfl⟩

/-- C7: with the same external-call behaviour, sequential and parallel
modes return the same outcome list (hence the same multiset of
(task id, approach, success) triples); the list flattens the per-task
pair lists in catalog order, and within each task the approach order is
xl before xlsx, each outcome stamped with its task's id. -/
theorem sequential_parallel_equivalence (cfg : Config) (ora : Oracle)
    (tasks : List Task) (task : Task) :
    run_benchmark true cfg ora tasks = run_benchmark false cfg ora tasks ∧
    (run_benchmark true cfg ora tasks).map outcomeTriple =
      (run_benchmark false cfg ora tasks).map outcomeTriple ∧
    run_benchmark false cfg ora tasks =
      (tasks.map (run_task_pair cfg ora)).flatten ∧
    (run_task_pair cfg ora task).map (fun r => r.approach) =
      (if cfg.xlsx_only then [] else ["xl"]) ++
        (if cfg.xl_only then [] else ["xlsx"]) ∧
    (run_task_pair cfg ora task).map (fun r => r.task_id) =
      (if cfg.xlsx_only then [] else [task.id]) ++
        (if cfg.xl_only then [] else [task.id]) := by
  have heq : run_benchmark true cfg ora tasks =
      run_benchmark false cfg ora tasks :=
    (run_benchmark_eq_seq true cfg ora tasks).trans
      (run_benchmark_eq_seq false cfg ora tasks).symm
  refine ⟨heq, by rw [heq], ?_, ?_, ?_⟩
  · rw [run_benchmark_eq_seq]
    exact (flatten_map_pair cfg ora tasks).symm
  · unfold run_task_pair
    cases cfg.xlsx_only <;> cases cfg.xl_only <;>
      simp [(run_and_grade_fields _ _ _).1, (run_xl_task_fields _ _ _).1,
        (run_xlsx_task_fields _ _ _).1]
  · unfold run_task_pair
    cases cfg.xlsx_only <;> cases cfg.xl_only <;>
      simp [(run_and_grade_fields _ _ _).2, (run_xl_task_fields _ _ _).2,
        (run_xlsx_task_fields _ _ _).2]

/-- Folding the comparison loop collects exactly the xl grades of the
comparable rows, in row order. -/
theorem foldl_accumRow_xl_grades (ps : List TaskPair) (t : Totals) :
    (ps.foldl accumRow t).xl_grades =
      t.xl_grades ++ ps.foldr (fun p acc => pairXlGrades p ++ acc) [] := by
  induction ps generalizing t with
  | nil => simp
  | cons p ps ih =>
    rw [List.foldl_cons, ih, List.foldr_cons]
    have hstep : (accumRow t p).xl_grades = t.xl_grades ++ pairXlGrades p := by
      obtain ⟨nm, xlo, xo⟩ := p
      cases xlo with
      | none => simp [accumRow, pairXlGrades]
      | some a =>
        cases xo with
        | none => simp [accumRow, pairXlGrades]
        | some b =>
          by_cases hs : a.success && b.success <;>
            simp [accumRow, pairXlGrades, hs]
    rw [hstep, List.append_assoc]

/-- Folding the comparison loop collects exactly the xlsx grades of the
comparable rows, in row order. -/
theorem foldl_accumRow_xlsx_grades (ps : List TaskPair) (t : Totals) :
    (ps.foldl accumRow t).xlsx_grades =
      t.xlsx_grades ++ ps.foldr (fun p acc => pairXlsxGrades p ++ acc) [] := by
  induction ps generalizing t with
  | nil => simp
  | cons p ps ih =>
    rw [List.foldl_cons, ih, List.foldr_cons]
    have hstep : (accumRow t p).xlsx_grades =
        t.xlsx_grades ++ pairXlsxGrades p := by
      obtain ⟨nm, xlo, xo⟩ := p
      cases xlo with
      | none => simp [accumRow, pairXlsxGrades]
      | some a =>
        cases xo with
        | none => simp [accumRow, pairXlsxGrades]
        | some b =>
          by_cases hs : a.success && b.success <;>
            simp [accumRow, pairXlsxGrades, hs]
    rw [hstep, List.append_assoc]

/-- C1 counterexample: a run where both approaches succeed on the single
task with 100 total tokens each. The summed totals are equal, the
per-task rule applied to them gives `"tie"` with 0% savings, yet the
run-level block reports winner `"xlsx"` — so the run-level winner is not
computed by the same rule as the per-task rule on equal summed totals. -/
theorem run_level_tie_counterexample :
    total_xl (comparison tieResults) = 100 ∧
    total_xlsx (comparison tieResults) = 100 ∧
    task_winner (total_xl (comparison tieResults))
      (total_xlsx (comparison tieResults)) = "tie" ∧
    task_savings (total_xl (comparison tieResults))
      (total_xlsx (comparison tieResults)) = 0 ∧
    overall tieResults = some ("xlsx", 0) ∧
    (overall tieResults).map Prod.fst ≠ some "tie" := by
  have h1 : total_xl (comparison tieResults) = 100 := by decide
  have h2 : total_xlsx (comparison tieResults) = 100 := by decide
  have hov : overall tieResults = some ("xlsx", 0) := by
    rw [overall, h1, h2]
    norm_num
  refine ⟨h1, h2, ?_, ?_, hov, ?_⟩
  · rw [h1, h2]
    decide
  · rw [h1, h2, task_savings]
    norm_num
  · rw [hov]
    simp

/-- C1 amended: when the summed totals across comparable tasks differ,
the run-level winner and savings follow the per-task rule applied to
those summed totals; when the summed totals are equal (and positive,
as the run-level block requires) the winner is reported as `"xlsx"`
with 0% savings rather than `"tie"`. -/
theorem run_level_winner_rule (results : List TaskResult)
    (ha : 0 < total_xl (comparison results))
    (hb : 0 < total_xlsx (comparison results)) :
    (total_xl (comparison results) ≠ total_xlsx (comparison results) →
      overall results =
        some (task_winner (total_xl (comparison results))
                (total_xlsx (comparison results)),
              task_savings (total_xl (comparison results))
                (total_xlsx (comparison results)))) ∧
    (total_xl (comparison results) = total_xlsx (comparison results) →
      overall results = some ("xlsx", 0)) := by
  constructor
  · intro hne
    rw [overall, if_pos ⟨ha, hb⟩]
    by_cases hlt :
        total_xl (comparison results) < total_xlsx (comparison results)
    · rw [if_pos hlt, task_winner, if_pos hlt, task_savings, if_pos hlt]
    · have hgt :
          total_xlsx (comparison results) < total_xl (comparison results) := by
        omega
      rw [if_neg hlt, task_winner, if_neg hlt, if_pos hgt, task_savings,
        if_neg hlt, if_pos hgt]
  · intro heqt
    rw [overall, if_pos ⟨ha, hb⟩, if_neg (by omega), heqt]
    norm_num

/-- Witness for `run_level_winner_rule` at the concrete tied run. -/
theorem run_level_winner_rule_witness :
    overall tieResults = some ("xlsx", 0) := by
  have h := run_level_winner_rule tieResults (by decide) (by decide)
  exact h.2 (by decide)

/-- C2 counterexample: a run where the xl outcome succeeded and carries
grade A while the xlsx outcome failed. The xl grade list built by the
comparison loop is empty (its average displays `"-"`), although the
spec-worded collection over all gradable xl outcomes is `["A"]`
(average `"A"`) — so a grade does not contribute when the other
approach failed on the same task. -/
theorem grade_average_counterexample :
    (xlsxFailResults.map fun r => (r.approach, r.success, r.grade)) =
      [("xl", true, some "A"), ("xlsx", false, none)] ∧
    (comparison xlsxFailResults).xl_grades = [] ∧
    specApproachGrades "xl" xlsxFailResults = ["A"] ∧
    avg_grade ((comparison xlsxFailResults).xl_grades) = "-" ∧
    avg_grade (specApproachGrades "xl" xlsxFailResults) = "A" := by
  have h1 : (comparison xlsxFailResults).xl_grades = [] := by decide
  have h2 : specApproachGrades "xl" xlsxFailResults = ["A"] := by decide
  refine ⟨by decide, h1, h2, ?_, ?_⟩
  · rw [h1]
    norm_num [avg_grade]
  · rw [h2]
    norm_num [avg_grade, grade_to_num]

/-- C2 amended: the per-approach average is taken over the grades of
that approach's outcomes on tasks where both approaches are present and
succeeded (not over all gradable outcomes of the approach); the letter
mapping is A=4, B=3, C=2, D=1, F=0 with the sentinel `"?"` mapped to -1
and excluded, and a non-empty valid list is bucketed by the thresholds
3.5 / 2.5 / 1.5 / 0.5. -/
theorem grade_average_comparable_rule (results : List TaskResult)
    (grades : List String)
    (hne : ((grades.map grade_to_num).filter fun n => 0 ≤ n) ≠ []) :
    (comparison results).xl_grades = comparableXlGrades results ∧
    (comparison results).xlsx_grades = comparableXlsxGrades results ∧
    grade_to_num "A" = 4 ∧ grade_to_num "B" = 3 ∧ grade_to_num "C" = 2 ∧
    grade_to_num "D" = 1 ∧ grade_to_num "F" = 0 ∧ grade_to_num "?" = -1 ∧
    avg_grade grades =
      bucket_mean
        ((((grades.map grade_to_num).filter fun n => 0 ≤ n).sum : ℚ) /
          (((grades.map grade_to_num).filter fun n => 0 ≤ n).length : ℚ)) := by
  refine ⟨?_, ?_, rfl, rfl, rfl, rfl, rfl, rfl, ?_⟩
  · rw [comparison, foldl_accumRow_xl_grades]
    rfl
  · rw [comparison, foldl_accumRow_xlsx_grades]
    rfl
  · unfold avg_grade bucket_mean
    rw [if_neg]
    simp [List.isEmpty_iff, hne]

/-- Witness for `grade_average_comparable_rule`: the spec's own bucketing
examples, grades [A, A, B, B] average to A and [C, D] to C. -/
theorem grade_average_comparable_rule_witness :
    avg_grade ["A", "A", "B", "B"] = "A" ∧ avg_grade ["C", "D"] = "C" := by
  have h1 := grade_average_comparable_rule [] ["A", "A", "B", "B"] (by decide)
  have h2 := grade_average_comparable_rule [] ["C", "D"] (by decide)
  have hl1 : ((["A", "A", "B", "B"].map grade_to_num).filter
      fun n => 0 ≤ n) = [4, 4, 3, 3] := by decide
  have hl2 : ((["C", "D"].map grade_to_num).filter
      fun n => 0 ≤ n) = [2, 1] := by decide
  constructor
  · rw [h1.2.2.2.2.2.2.2.2, hl1]
    norm_num [bucket_mean]
  · rw [h2.2.2.2.2.2.2.2.2, hl2]
    norm_num [bucket_mean]

/-- C3 counterexample: a failed outcome has none of grade, reasoning or
response text set, yet its serialized object still contains all three
keys — mapped to null rather than being absent. -/
theorem serialized_null_counterexample :
    failedOutcome.grade = none ∧
    failedOutcome.response_text = none ∧
    failedOutcome.grade_reasoning = none ∧
    hasKey (taskResultAsdict failedOutcome) "grade" = true ∧
    hasKey (taskResultAsdict failedOutcome) "response_text" = true ∧
    hasKey (taskResultAsdict failedOutcome) "grade_reasoning" = true ∧
    lookupKey (taskResultAsdict failedOutcome) "grade" = some Json.null ∧
    lookupKey (taskResultAsdict failedOutcome) "response_text" =
      some Json.null ∧
    lookupKey (taskResultAsdict failedOutcome) "grade_reasoning" =
      some Json.null :=
  ⟨rfl, rfl, rfl, by decide, by decide, by decide, rfl, rfl, rfl⟩

/-- C3 amended: each serialized result object always contains the four
optional keys; each maps to the field's string when set and to null when
unset, and the run record's `results` array is the per-result
serialization in order. -/
theorem serialized_optional_fields (r : TaskResult) (b : BenchmarkResults) :
    hasKey (taskResultAsdict r) "error" = true ∧
    hasKey (taskResultAsdict r) "response_text" = true ∧
    hasKey (taskResultAsdict r) "grade" = true ∧
    hasKey (taskResultAsdict r) "grade_reasoning" = true ∧
    lookupKey (taskResultAsdict r) "error" = some (optStrJson r.error) ∧
    lookupKey (taskResultAsdict r) "response_text" =
      some (optStrJson r.response_text) ∧
    lookupKey (taskResultAsdict r) "grade" = some (optStrJson r.grade) ∧
    lookupKey (taskResultAsdict r) "grade_reasoning" =
      some (optStrJson r.grade_reasoning) ∧
    optStrJson none = Json.null ∧
    (∀ s, optStrJson (some s) = Json.str s) ∧
    lookupKey (benchmarkToDict b) "results" =
      some (Json.arr (b.results.map taskResultAsdict)) :=
  ⟨rfl, rfl, rfl, rfl, rfl, rfl, rfl, rfl, rfl, fun _ => rfl, rfl⟩

/-- C10: with both approach filters set, every task's unit of work
produces zero outcomes, `run_benchmark` returns the empty list in either
mode, and `main` still persists a run record whose `results` array is
empty. -/
theorem both_filters_empty_run (ora : Oracle) (tasks0 : List Task)
    (task : Task) (seq ng : Bool) (ts sf : String) :
    run_task_pair { xl_only := true, xlsx_only := true,
                    enable_grading := !ng } ora task = [] ∧
    run_benchmark (!seq) { xl_only := true, xlsx_only := true,
                           enable_grading := !ng } ora tasks0 = [] ∧
    main_run true true { task := none, xl_only := true, xlsx_only := true,
                         sequential := seq, no_grade := ng } ora tasks0 ts sf =
      some (benchmarkToDict { timestamp := ts,
                              model := "claude-sonnet-4-5-20250929",
                              sample_file := sf, results := [] }) ∧
    lookupKey (benchmarkToDict { timestamp := ts,
                                 model := "claude-sonnet-4-5-20250929",
                                 sample_file := sf, results := [] })
      "results" = some (Json.arr []) := by
  have hpair : ∀ t, run_task_pair
      { xl_only := true, xlsx_only := true, enable_grading := !ng }
      ora t = [] := by
    intro t
    simp [run_task_pair]
  have hseq : ∀ l, run_benchmark_seq
      { xl_only := true, xlsx_only := true, enable_grading := !ng }
      ora l = [] := by
    intro l
    induction l with
    | nil => rfl
    | cons t l ih => simp [run_benchmark_seq, hpair, ih]
  have hbench : ∀ (b : Bool) l, run_benchmark b
      { xl_only := true, xlsx_only := true, enable_grading := !ng }
      ora l = [] := fun b l =>
    (run_benchmark_eq_seq b _ ora l).trans (hseq l)
  refine ⟨hpair task, hbench _ _, ?_, rfl⟩
  simp only [main_run, select_tasks, Bool.not_true, Bool.false_and,
    Option.isSome_none, if_false]
  rw [hbench]
  simp

end Benchmark
